import Mathlib

/-!
Verification of the TrustNet authorization gate (`protectedRoute` in
`lib/middleware/protected-route`) and the profile-update `PATCH` route
handler it wraps, against the repository's design specification.

The TypeScript sources are shallowly embedded: the in-place mutation of the
request object (`req.user = ...`) becomes explicit state passing (the gate
returns the outcome together with the request state after its own writes),
JavaScript truthiness of optional strings/numbers is made explicit, and
fallible collaborators (body JSON parsing, schema validation, the database
update, the cache-key deletion) are `Except`-valued.
-/

namespace TrustNet

/-- Decoded identity record carried in `auth.decoded` by the
token-verification collaborator: an `id` and a `role` string
(`verifyToken`'s claims payload, as consumed by `protectedRoute`). -/
structure Claims where
  id : String
  role : String
deriving Repr, DecidableEq

/-- The object returned by `verifyToken(req)` as consumed by the gate:
fields `decoded`, `error` and `status`, each possibly absent
(JavaScript `undefined` is `none`). -/
structure AuthResult where
  decoded : Option Claims
  error : Option String
  status : Option Nat
deriving Repr, DecidableEq

/-- The identity binding the gate writes onto `req.user`:
`{ id: auth.decoded.id, role: auth.decoded.role }`. -/
structure ReqUser where
  id : String
  role : String
deriving Repr, DecidableEq

/-- A Next.js request, split into the gate-relevant `user` context slot and
`payload`, which stands for every other field of the request (headers,
URL, body, ...), untouched by the gate. -/
structure NextRequest (α : Type) where
  payload : α
  user : Option ReqUser
deriving Repr, DecidableEq

/-- JavaScript truthiness of an optional string: `undefined` and the empty
string are falsy, every other string is truthy. -/
def truthyString : Option String → Bool
  | none => false
  | some s => s != ""

/-- JavaScript `a || d` for an optional string `a`: yields `d` when `a` is
`undefined` or the empty string (both falsy), otherwise the string itself.
Embeds `auth.error || "Authentication failed"`. -/
def jsOrString : Option String → String → String
  | none, d => d
  | some s, d => if s == "" then d else s

/-- JavaScript `a || d` for an optional number `a`: yields `d` when `a` is
`undefined` or `0` (both falsy), otherwise the number itself.
Embeds `auth.status || 401`. -/
def jsOrNat : Option Nat → Nat → Nat
  | none, d => d
  | some n, d => if n == 0 then d else n

/-- The value produced by one invocation of the guarded handler: either a
rejection response `NextResponse.json({ success, message }, { status })`
built by the gate itself, or the wrapped handler's own result, returned
unchanged. -/
inductive GateOutcome (β : Type) where
  | rejection (success : Bool) (message : String) (status : Nat)
  | fromHandler (result : β)
deriving Repr, DecidableEq

/-- The gate's role test `allowedRoles && !allowedRoles.includes(role)`:
an absent (`undefined`) allow-list never blocks; a present allow-list
(including the empty array, which is truthy in JavaScript) blocks exactly
the roles it does not contain. -/
def roleBlocked : Option (List String) → String → Bool
  | none, _ => false
  | some rs, r => !(rs.contains r)

/-- Shallow embedding of `protectedRoute(handler, allowedRoles?)` applied to
a request and extra args. `verify` is the external `verifyToken`
collaborator. The returned pair is (outcome, request state after the gate's
own writes): rejection paths leave the request unchanged, the authorized
path writes `req.user` before delegating. The first `match` scrutinises
`auth.error || !auth.decoded` exactly as the source does: a missing
`decoded` or a truthy `error` short-circuits to the 401-default rejection
with message `auth.error || "Authentication failed"` and status
`auth.status || 401`. -/
def protectedRoute {α β γ : Type} (verify : NextRequest α → AuthResult)
    (handler : NextRequest α → γ → β) (allowedRoles : Option (List String))
    (req : NextRequest α) (args : γ) : GateOutcome β × NextRequest α :=
  let auth := verify req
  match auth.decoded, truthyString auth.error with
  | none, _ =>
      (GateOutcome.rejection false (jsOrString auth.error "Authentication failed")
        (jsOrNat auth.status 401), req)
  | some _, true =>
      (GateOutcome.rejection false (jsOrString auth.error "Authentication failed")
        (jsOrNat auth.status 401), req)
  | some decoded, false =>
      if roleBlocked allowedRoles decoded.role then
        (GateOutcome.rejection false "Forbidden: Access denied" 403, req)
      else
        let bound : NextRequest α :=
          { req with user := some { id := decoded.id, role := decoded.role } }
        (GateOutcome.fromHandler (handler bound args), bound)

/-- Modelled from the spec: the token-verification collaborator
(`lib/middleware/verify-token`, not among the given sources) returns either
`\x7b decoded: Claims \x7d` or `\x7b error: string, status: int \x7d`; a
success result carries no error or status, a failure carries no decoded
claims, a populated error reason is a nonempty string, and a populated
suggested status is a nonzero HTTP status code. -/
def SpecVerifyResult (a : AuthResult) : Prop :=
  (a.decoded.isSome ∧ a.error = none ∧ a.status = none) ∨
  (a.decoded = none ∧ a.error ≠ some "" ∧ a.status ≠ some 0)

/-- The fixed role enumeration (`UserRole` in the schema migration). -/
def roleEnum : List String := ["CUSTOMER", "BUSINESS_OWNER", "ADMIN"]

/-- The parsed JSON body the profile-update schema validates: `name` and
`phone` optional strings; `email` optional, nullable, a string when
present (`none` = absent, `some none` = null, `some (some s)` = the
string `s`, with `s = ""` allowed by `.or(z.literal(""))`). -/
structure UpdateInput where
  name : Option String
  phone : Option String
  email : Option (Option String)
deriving Repr, DecidableEq

/-- `z.string().min(k)` on an optional field: absent passes, a present
string must have length at least `k`. -/
def optMinLen (k : Nat) : Option String → Bool
  | none => true
  | some s => decide (k ≤ s.length)

/-- The schema's email field check: absent or null passes; a present string
must satisfy the email validator or be the empty literal. `emailOk` is the
external zod email validator. -/
def emailFieldOk (emailOk : String → Bool) : Option (Option String) → Bool
  | none => true
  | some none => true
  | some (some s) => emailOk s || s == ""

/-- `updateSchema.parse(body)`: field checks (`name` min 2, `phone` min 10,
email valid-or-empty-or-null) plus the refinement `data.name || data.phone`
(JavaScript truthiness); a failing body raises a ZodError, embedded as
`Except.error`. -/
def updateSchemaParse (emailOk : String → Bool) (b : UpdateInput) :
    Except String UpdateInput :=
  if optMinLen 2 b.name && optMinLen 10 b.phone && emailFieldOk emailOk b.email
      && (truthyString b.name || truthyString b.phone) then
    Except.ok b
  else
    Except.error "ZodError"

/-- The data handed to `prisma.user.update`: the parsed fields with
`email` normalised — empty string and `undefined` (and null, which the
conditional leaves as null) all become null. -/
structure UpdateData where
  name : Option String
  phone : Option String
  email : Option String
deriving Repr, DecidableEq

/-- A row of the `users` table as returned by the update. -/
structure DbUser where
  id : String
  name : String
  phone : String
  email : Option String
  role : String
  createdAt : String
  updatedAt : String
deriving Repr, DecidableEq

/-- The fallible collaborators the PATCH handler awaits, each either
producing a value or throwing (`Except.error`): `req.json()`, the zod
email validator, `prisma.user.update`, and `redis.del`. -/
structure PatchEnv where
  jsonBody : Except String UpdateInput
  emailOk : String → Bool
  prismaUpdate : String → UpdateData → Except String DbUser
  redisDel : String → Except String Unit

/-- The response value of the PATCH handler:
`NextResponse.json(body, \x7b status \x7d)` with its `success`, `message`,
optional `user` and optional `error` body fields. -/
structure PatchResponse where
  status : Nat
  success : Bool
  message : String
  user : Option DbUser
  error : Option String
deriving Repr, DecidableEq

/-- The body of the `try` block of the profile-update handler: read
`req.user.id` (a TypeError if the context is unset), parse the JSON body,
validate it against `updateSchema`, normalise `email`, run the database
update, invalidate the `users:list` cache key, and produce the updated
row. Any step may throw. -/
def patchAttempt {α : Type} (env : PatchEnv) (req : NextRequest α) :
    Except String DbUser := do
  let u ← match req.user with
    | some u => Except.ok u
    | none => Except.error "TypeError: cannot read property id of undefined"
  let body ← env.jsonBody
  let data ← updateSchemaParse env.emailOk body
  let updateData : UpdateData :=
    { name := data.name, phone := data.phone,
      email := match data.email with
        | none => none
        | some none => none
        | some (some s) => if s == "" then none else some s }
  let updatedUser ← env.prismaUpdate u.id updateData
  let _ ← env.redisDel "users:list"
  Except.ok updatedUser

/-- The profile-update PATCH handler (the function wrapped by
`protectedRoute`): the `try` body on success yields the 200
"Profile updated successfully" response carrying the updated user; the
`catch` turns every thrown error into a 500 response with success false,
message "Update failed" and the error's message. -/
def patchHandler {α : Type} (env : PatchEnv) (req : NextRequest α) : PatchResponse :=
  match patchAttempt env req with
  | Except.ok u =>
      { status := 200, success := true, message := "Profile updated successfully",
        user := some u, error := none }
  | Except.error e =>
      { status := 500, success := false, message := "Update failed",
        user := none, error := some e }

/-- The exported `PATCH` route: the profile-update handler guarded by the
gate with no allow-list. -/
def PATCH {α : Type} (verify : NextRequest α → AuthResult) (env : PatchEnv)
    (req : NextRequest α) : GateOutcome PatchResponse × NextRequest α :=
  protectedRoute verify (fun r _ => patchHandler env r) none req ()

end TrustNet

namespace TrustNet

/-- C2: on every verification failure (no decoded claims) the gate rejects
with the collaborator's error string (default "Authentication failed" when
none is given) and the collaborator's suggested status (default 401), the
wrapped handler is never called, and this holds for every `allowedRoles`
value. -/
theorem protectedRoute_auth_failure {α β γ : Type} (a : AuthResult)
    (allowedRoles : Option (List String)) (handler : NextRequest α → γ → β)
    (req : NextRequest α) (args : γ)
    (hd : a.decoded = none) (he : a.error ≠ some "") (hs : a.status ≠ some 0) :
    protectedRoute (fun _ => a) handler allowedRoles req args =
      (GateOutcome.rejection false (a.error.getD "Authentication failed")
        (a.status.getD 401), req) := by
  cases a with
  | mk decoded error status =>
    subst hd
    cases error with
    | none =>
      cases status with
      | none => simp [protectedRoute, jsOrString, jsOrNat]
      | some n =>
        have hn : n ≠ 0 := by
          intro h0
          exact hs (by simp [h0])
        simp [protectedRoute, jsOrString, jsOrNat, hn]
    | some s =>
      have hsne : s ≠ "" := by
        intro h0
        exact he (by simp [h0])
      cases status with
      | none => simp [protectedRoute, jsOrString, jsOrNat, hsne]
      | some n =>
        have hn : n ≠ 0 := by
          intro h0
          exact hs (by simp [h0])
        simp [protectedRoute, jsOrString, jsOrNat, hsne, hn]

/-- Witness for C2 at a concrete input: the collaborator returns neither
error string nor status and no decoded claims (scenario 3 of the spec);
the gate answers 401 "Authentication failed". -/
theorem protectedRoute_auth_failure_witness :
    protectedRoute (fun _ => ({ decoded := none, error := none, status := none } : AuthResult))
      (fun (_ : NextRequest Unit) (_ : Unit) => (0 : Nat)) (some ["ADMIN"])
      { payload := (), user := none } () =
      (GateOutcome.rejection false "Authentication failed" 401,
        { payload := (), user := none }) := by
  have h := protectedRoute_auth_failure
    ({ decoded := none, error := none, status := none } : AuthResult)
    (some ["ADMIN"]) (fun (_ : NextRequest Unit) (_ : Unit) => (0 : Nat))
    { payload := (), user := none } () rfl (by simp) (by simp)
  simpa using h

/-- C3: a verified request (decoded claims, no error) whose role is outside
a given non-empty allow-list is rejected with status 403 and message
"Forbidden: Access denied", success false, and the handler is not invoked. -/
theorem protectedRoute_role_forbidden {α β γ : Type} (a : AuthResult)
    (rs : List String) (handler : NextRequest α → γ → β)
    (req : NextRequest α) (args : γ) (c : Claims)
    (hd : a.decoded = some c) (he : a.error = none)
    (_hne : rs ≠ []) (hrole : c.role ∉ rs) :
    protectedRoute (fun _ => a) handler (some rs) req args =
      (GateOutcome.rejection false "Forbidden: Access denied" 403, req) := by
  cases a with
  | mk decoded error status =>
    subst hd
    subst he
    simp [protectedRoute, truthyString, roleBlocked, hrole]

/-- Witness for C3 at the spec's concrete scenario 2: role "CUSTOMER"
against allow-list ["ADMIN"] is rejected 403. -/
theorem protectedRoute_role_forbidden_witness :
    protectedRoute
      (fun _ => ({ decoded := some { id := "u2", role := "CUSTOMER" },
                   error := none, status := none } : AuthResult))
      (fun (_ : NextRequest Unit) (_ : Unit) => (0 : Nat)) (some ["ADMIN"])
      { payload := (), user := none } () =
      (GateOutcome.rejection false "Forbidden: Access denied" 403,
        { payload := (), user := none }) := by
  have h := protectedRoute_role_forbidden
    ({ decoded := some { id := "u2", role := "CUSTOMER" },
       error := none, status := none } : AuthResult)
    ["ADMIN"] (fun (_ : NextRequest Unit) (_ : Unit) => (0 : Nat))
    { payload := (), user := none } () { id := "u2", role := "CUSTOMER" }
    rfl rfl (by simp) (by simp)
  simpa using h

/-- C4: a verified request whose role passes the (absent or matching)
allow-list has `\x7b id, role \x7d` bound onto the request context, the
handler is invoked exactly once with that bound request and the original
extra args, and its result is returned unchanged. -/
theorem protectedRoute_authorized {α β γ : Type} (a : AuthResult)
    (allowedRoles : Option (List String)) (handler : NextRequest α → γ → β)
    (req : NextRequest α) (args : γ) (c : Claims)
    (hd : a.decoded = some c) (he : a.error = none)
    (hr : allowedRoles = none ∨ ∃ rs, allowedRoles = some rs ∧ c.role ∈ rs) :
    protectedRoute (fun _ => a) handler allowedRoles req args =
      (GateOutcome.fromHandler
        (handler { req with user := some { id := c.id, role := c.role } } args),
        { req with user := some { id := c.id, role := c.role } }) := by
  cases a with
  | mk decoded error status =>
    subst hd
    subst he
    rcases hr with hnone | ⟨rs, hrs, hmem⟩
    · subst hnone
      simp [protectedRoute, truthyString, roleBlocked]
    · subst hrs
      simp [protectedRoute, truthyString, roleBlocked, hmem]

/-- Witness for C4 at the spec's concrete scenario 1: claims
`\x7bid:"u1", role:"CUSTOMER"\x7d`, no allow-list; the handler (here the
function reading the bound context) runs on the bound request and its
result passes through unchanged. -/
theorem protectedRoute_authorized_witness :
    protectedRoute
      (fun _ => ({ decoded := some { id := "u1", role := "CUSTOMER" },
                   error := none, status := none } : AuthResult))
      (fun (r : NextRequest Unit) (_ : Unit) => r.user) none
      { payload := (), user := none } () =
      (GateOutcome.fromHandler (some { id := "u1", role := "CUSTOMER" }),
        { payload := (), user := some { id := "u1", role := "CUSTOMER" } }) := by
  have h := protectedRoute_authorized
    ({ decoded := some { id := "u1", role := "CUSTOMER" },
       error := none, status := none } : AuthResult)
    none (fun (r : NextRequest Unit) (_ : Unit) => r.user)
    { payload := (), user := none } () { id := "u1", role := "CUSTOMER" }
    rfl rfl (Or.inl rfl)
  simpa using h

/-- C9: an empty `allowedRoles` array is truthy in JavaScript and contains
no role, so every verified request (decoded claims, no error) is rejected
403 "Forbidden: Access denied": an empty allow-list denies all
authenticated callers rather than imposing no restriction. -/
theorem protectedRoute_empty_allowlist {α β γ : Type} (a : AuthResult)
    (handler : NextRequest α → γ → β) (req : NextRequest α) (args : γ)
    (c : Claims) (hd : a.decoded = some c) (he : a.error = none) :
    protectedRoute (fun _ => a) handler (some []) req args =
      (GateOutcome.rejection false "Forbidden: Access denied" 403, req) := by
  cases a with
  | mk decoded error status =>
    subst hd
    subst he
    simp [protectedRoute, truthyString, roleBlocked]

/-- Witness for C9: an authenticated ADMIN is still rejected 403 by an empty
allow-list. -/
theorem protectedRoute_empty_allowlist_witness :
    protectedRoute
      (fun _ => ({ decoded := some { id := "u3", role := "ADMIN" },
                   error := none, status := none } : AuthResult))
      (fun (_ : NextRequest Unit) (_ : Unit) => (0 : Nat)) (some [])
      { payload := (), user := none } () =
      (GateOutcome.rejection false "Forbidden: Access denied" 403,
        { payload := (), user := none }) := by
  have h := protectedRoute_empty_allowlist
    ({ decoded := some { id := "u3", role := "ADMIN" },
       error := none, status := none } : AuthResult)
    (fun (_ : NextRequest Unit) (_ : Unit) => (0 : Nat))
    { payload := (), user := none } () { id := "u3", role := "ADMIN" } rfl rfl
  simpa using h

/-- C1: over collaborator results of the shape the verification interface
admits, the wrapped handler is invoked if and only if decoded claims were
produced and the role passes the (possibly absent) allow-list; otherwise
the gate returns a rejection built without the handler. -/
theorem protectedRoute_invokes_iff {α β γ : Type} (a : AuthResult)
    (allowedRoles : Option (List String)) (handler : NextRequest α → γ → β)
    (req : NextRequest α) (args : γ) (hA : SpecVerifyResult a) :
    (∃ b, (protectedRoute (fun _ => a) handler allowedRoles req args).1 =
        GateOutcome.fromHandler b) ↔
      (∃ c, a.decoded = some c ∧ ∀ rs, allowedRoles = some rs → c.role ∈ rs) := by
  rcases hA with ⟨hsome, herr, _⟩ | ⟨hnone, _, _⟩
  · rcases Option.isSome_iff_exists.mp hsome with ⟨c, hc⟩
    cases a with
    | mk decoded error status =>
      simp only at hc herr
      subst hc
      subst herr
      constructor
      · intro hex
        refine ⟨c, rfl, ?_⟩
        intro rs hrs
        subst hrs
        rcases hex with ⟨b, hb⟩
        by_contra hmem
        simp [protectedRoute, truthyString, roleBlocked, hmem] at hb
      · rintro ⟨c', hc', hall⟩
        simp only [Option.some.injEq] at hc'
        subst hc'
        cases allowedRoles with
        | none =>
          exact ⟨handler { req with user := some { id := c.id, role := c.role } } args,
            by simp [protectedRoute, truthyString, roleBlocked]⟩
        | some rs =>
          have hmem := hall rs rfl
          exact ⟨handler { req with user := some { id := c.id, role := c.role } } args,
            by simp [protectedRoute, truthyString, roleBlocked, hmem]⟩
  · cases a with
    | mk decoded error status =>
      simp only at hnone
      subst hnone
      constructor
      · rintro ⟨b, hb⟩
        cases htr : truthyString error <;>
          simp [protectedRoute, htr] at hb
      · rintro ⟨c, hc, -⟩
        exact absurd hc (by simp)

/-- Witness for C1: an ADMIN result against allow-list ["ADMIN"] reaches the
handler. -/
theorem protectedRoute_invokes_iff_witness :
    ∃ b, (protectedRoute
      (fun _ => ({ decoded := some { id := "u9", role := "ADMIN" },
                   error := none, status := none } : AuthResult))
      (fun (_ : NextRequest Unit) (_ : Unit) => (7 : Nat)) (some ["ADMIN"])
      { payload := (), user := none } ()).1 = GateOutcome.fromHandler b := by
  refine (protectedRoute_invokes_iff
    ({ decoded := some { id := "u9", role := "ADMIN" },
       error := none, status := none } : AuthResult)
    (some ["ADMIN"]) (fun (_ : NextRequest Unit) (_ : Unit) => (7 : Nat))
    { payload := (), user := none } () (Or.inl (by simp [SpecVerifyResult]))).mpr ?_
  exact ⟨{ id := "u9", role := "ADMIN" }, rfl, by
    intro rs hrs
    cases hrs
    simp⟩

/-- C5: with no allow-list, every verified request is authorized whatever
its role string is; with an allow-list drawn from the fixed enum
`\x7bCUSTOMER, BUSINESS_OWNER, ADMIN\x7d`, a role string outside the enum
is never a member and is always rejected 403. -/
theorem protectedRoute_role_policy {α β γ : Type} (a : AuthResult)
    (handler : NextRequest α → γ → β) (req : NextRequest α) (args : γ)
    (c : Claims) (hd : a.decoded = some c) (he : a.error = none) :
    (∃ b, (protectedRoute (fun _ => a) handler none req args).1 =
        GateOutcome.fromHandler b) ∧
    (c.role ∉ roleEnum → ∀ rs : List String, (∀ r ∈ rs, r ∈ roleEnum) →
      protectedRoute (fun _ => a) handler (some rs) req args =
        (GateOutcome.rejection false "Forbidden: Access denied" 403, req)) := by
  cases a with
  | mk decoded error status =>
    subst hd
    subst he
    constructor
    · exact ⟨handler { req with user := some { id := c.id, role := c.role } } args,
        by simp [protectedRoute, truthyString, roleBlocked]⟩
    · intro hout rs hsub
      have hrole : c.role ∉ rs := fun hmem => hout (hsub c.role hmem)
      simp [protectedRoute, truthyString, roleBlocked, hrole]

/-- Witness for C5: the unknown role string "SUPERUSER" passes with no
allow-list and is rejected 403 by the allow-list ["CUSTOMER", "ADMIN"]. -/
theorem protectedRoute_role_policy_witness :
    (∃ b, (protectedRoute
      (fun _ => ({ decoded := some { id := "u4", role := "SUPERUSER" },
                   error := none, status := none } : AuthResult))
      (fun (_ : NextRequest Unit) (_ : Unit) => (0 : Nat)) none
      { payload := (), user := none } ()).1 = GateOutcome.fromHandler b) ∧
    protectedRoute
      (fun _ => ({ decoded := some { id := "u4", role := "SUPERUSER" },
                   error := none, status := none } : AuthResult))
      (fun (_ : NextRequest Unit) (_ : Unit) => (0 : Nat))
      (some ["CUSTOMER", "ADMIN"]) { payload := (), user := none } () =
      (GateOutcome.rejection false "Forbidden: Access denied" 403,
        { payload := (), user := none }) := by
  have h := protectedRoute_role_policy
    ({ decoded := some { id := "u4", role := "SUPERUSER" },
       error := none, status := none } : AuthResult)
    (fun (_ : NextRequest Unit) (_ : Unit) => (0 : Nat))
    { payload := (), user := none } () { id := "u4", role := "SUPERUSER" } rfl rfl
  exact ⟨h.1, h.2 (by decide) ["CUSTOMER", "ADMIN"] (by decide)⟩

/-- C6: the gate's only write to the request is the `req.user` identity
binding on the authorized path: the rest of the request (`payload`) is
unchanged on every path, a rejection leaves the request exactly as it
came, and on delegation the request equals the original with `user` set to
the decoded claims' fields. -/
theorem protectedRoute_frame {α β γ : Type} (verify : NextRequest α → AuthResult)
    (handler : NextRequest α → γ → β) (allowedRoles : Option (List String))
    (req : NextRequest α) (args : γ) :
    (protectedRoute verify handler allowedRoles req args).2.payload = req.payload ∧
    (∀ s m st, (protectedRoute verify handler allowedRoles req args).1 =
        GateOutcome.rejection s m st →
      (protectedRoute verify handler allowedRoles req args).2 = req) ∧
    ((∃ b, (protectedRoute verify handler allowedRoles req args).1 =
        GateOutcome.fromHandler b) →
      ∃ c, (verify req).decoded = some c ∧
        (protectedRoute verify handler allowedRoles req args).2 =
          { payload := req.payload, user := some { id := c.id, role := c.role } }) := by
  cases hv : verify req with
  | mk decoded error status =>
    cases decoded with
    | none =>
      refine ⟨?_, ?_, ?_⟩
      · simp [protectedRoute, hv]
      · intro s m st _
        simp [protectedRoute, hv]
      · rintro ⟨b, hb⟩
        simp [protectedRoute, hv] at hb
    | some c =>
      cases htr : truthyString error with
      | true =>
        refine ⟨?_, ?_, ?_⟩
        · simp [protectedRoute, hv, htr]
        · intro s m st _
          simp [protectedRoute, hv, htr]
        · rintro ⟨b, hb⟩
          simp [protectedRoute, hv, htr] at hb
      | false =>
        cases hbl : roleBlocked allowedRoles c.role with
        | true =>
          refine ⟨?_, ?_, ?_⟩
          · simp [protectedRoute, hv, htr, hbl]
          · intro s m st _
            simp [protectedRoute, hv, htr, hbl]
          · rintro ⟨b, hb⟩
            simp [protectedRoute, hv, htr, hbl] at hb
        | false =>
          refine ⟨?_, ?_, ?_⟩
          · simp [protectedRoute, hv, htr, hbl]
          · intro s m st hrej
            simp [protectedRoute, hv, htr, hbl] at hrej
          · intro _
            refine ⟨c, by simp [hv], ?_⟩
            cases req with
            | mk payload user => simp [protectedRoute, hv, htr, hbl]

/-- Witness for C6, applying the frame theorem on a rejected and on an
authorized invocation: the 403 rejection leaves the request untouched,
the authorized path only sets `user`. -/
theorem protectedRoute_frame_witness :
    (protectedRoute
      (fun _ => ({ decoded := some { id := "u5", role := "CUSTOMER" },
                   error := none, status := none } : AuthResult))
      (fun (_ : NextRequest Nat) (_ : Unit) => (0 : Nat)) (some ["ADMIN"])
      { payload := 42, user := none } ()).2 = { payload := 42, user := none } ∧
    (∃ c, (({ decoded := some { id := "u5", role := "CUSTOMER" },
              error := none, status := none } : AuthResult)).decoded = some c ∧
      (protectedRoute
        (fun _ => ({ decoded := some { id := "u5", role := "CUSTOMER" },
                     error := none, status := none } : AuthResult))
        (fun (_ : NextRequest Nat) (_ : Unit) => (0 : Nat)) none
        { payload := 42, user := none } ()).2 =
        { payload := 42, user := some { id := c.id, role := c.role } }) := by
  constructor
  · exact (protectedRoute_frame
      (fun _ => ({ decoded := some { id := "u5", role := "CUSTOMER" },
                   error := none, status := none } : AuthResult))
      (fun (_ : NextRequest Nat) (_ : Unit) => (0 : Nat)) (some ["ADMIN"])
      { payload := 42, user := none } ()).2.1 false "Forbidden: Access denied" 403
      (by simp [protectedRoute, truthyString, roleBlocked])
  · exact (protectedRoute_frame
      (fun _ => ({ decoded := some { id := "u5", role := "CUSTOMER" },
                   error := none, status := none } : AuthResult))
      (fun (_ : NextRequest Nat) (_ : Unit) => (0 : Nat)) none
      { payload := 42, user := none } ()).2.2
      ⟨0, by simp [protectedRoute, truthyString, roleBlocked]⟩

/-- C7: on every input the guarded handler yields a normal return value:
either the wrapped handler's result, or a well-formed rejection with
success false whose status is the collaborator-derived 401-default or the
literal 403 — never an uncaught fault. -/
theorem protectedRoute_total_outcomes {α β γ : Type}
    (verify : NextRequest α → AuthResult) (handler : NextRequest α → γ → β)
    (allowedRoles : Option (List String)) (req : NextRequest α) (args : γ) :
    (∃ b, (protectedRoute verify handler allowedRoles req args).1 =
        GateOutcome.fromHandler b) ∨
    (∃ m, (protectedRoute verify handler allowedRoles req args).1 =
        GateOutcome.rejection false m (jsOrNat (verify req).status 401)) ∨
    ((protectedRoute verify handler allowedRoles req args).1 =
        GateOutcome.rejection false "Forbidden: Access denied" 403) := by
  cases hv : verify req with
  | mk decoded error status =>
    cases decoded with
    | none =>
      exact Or.inr (Or.inl ⟨jsOrString error "Authentication failed",
        by simp [protectedRoute, hv]⟩)
    | some c =>
      cases htr : truthyString error with
      | true =>
        exact Or.inr (Or.inl ⟨jsOrString error "Authentication failed",
          by simp [protectedRoute, hv, htr]⟩)
      | false =>
        cases hbl : roleBlocked allowedRoles c.role with
        | true =>
          exact Or.inr (Or.inr (by simp [protectedRoute, hv, htr, hbl]))
        | false =>
          exact Or.inl ⟨handler { req with user := some { id := c.id, role := c.role } } args,
            by simp [protectedRoute, hv, htr, hbl]⟩

/-- The authorization decision a gate outcome embodies: `none` when the
wrapped handler was invoked, otherwise the rejection's success flag,
message and status. -/
def decision {β : Type} : GateOutcome β → Option (Bool × String × Nat)
  | GateOutcome.rejection s m st => some (s, m, st)
  | GateOutcome.fromHandler _ => none

/-- C8: the authorization decision is a deterministic function of the
verification result and the allow-list alone: two invocations (even with
different handlers, payload types or extra args) whose collaborator
results agree and whose allow-lists agree decide identically. -/
theorem protectedRoute_deterministic {α₁ α₂ β₁ β₂ γ₁ γ₂ : Type}
    (verify₁ : NextRequest α₁ → AuthResult) (verify₂ : NextRequest α₂ → AuthResult)
    (handler₁ : NextRequest α₁ → γ₁ → β₁) (handler₂ : NextRequest α₂ → γ₂ → β₂)
    (allowedRoles : Option (List String)) (req₁ : NextRequest α₁)
    (req₂ : NextRequest α₂) (args₁ : γ₁) (args₂ : γ₂)
    (heq : verify₁ req₁ = verify₂ req₂) :
    decision (protectedRoute verify₁ handler₁ allowedRoles req₁ args₁).1 =
      decision (protectedRoute verify₂ handler₂ allowedRoles req₂ args₂).1 := by
  cases hv : verify₁ req₁ with
  | mk decoded error status =>
    have hv₂ : verify₂ req₂ = { decoded := decoded, error := error, status := status } := by
      rw [← heq, hv]
    cases decoded with
    | none => simp [protectedRoute, hv, hv₂, decision]
    | some c =>
      cases htr : truthyString error with
      | true => simp [protectedRoute, hv, hv₂, htr, decision]
      | false =>
        cases hbl : roleBlocked allowedRoles c.role with
        | true => simp [protectedRoute, hv, hv₂, htr, hbl, decision]
        | false => simp [protectedRoute, hv, hv₂, htr, hbl, decision]

/-- Witness for C8: two gates over different payload and result types,
fed the same verification result and allow-list, decide identically. -/
theorem protectedRoute_deterministic_witness :
    decision (protectedRoute
      (fun _ => ({ decoded := some { id := "u6", role := "CUSTOMER" },
                   error := none, status := none } : AuthResult))
      (fun (_ : NextRequest Unit) (_ : Unit) => (0 : Nat)) (some ["ADMIN"])
      { payload := (), user := none } ()).1 =
    decision (protectedRoute
      (fun _ => ({ decoded := some { id := "u6", role := "CUSTOMER" },
                   error := none, status := none } : AuthResult))
      (fun (_ : NextRequest Nat) (_ : Unit) => "hello") (some ["ADMIN"])
      { payload := 5, user := none } ()).1 :=
  protectedRoute_deterministic
    (fun _ => ({ decoded := some { id := "u6", role := "CUSTOMER" },
                 error := none, status := none } : AuthResult))
    (fun _ => ({ decoded := some { id := "u6", role := "CUSTOMER" },
                 error := none, status := none } : AuthResult))
    (fun (_ : NextRequest Unit) (_ : Unit) => (0 : Nat))
    (fun (_ : NextRequest Nat) (_ : Unit) => "hello")
    (some ["ADMIN"]) { payload := (), user := none }
    { payload := 5, user := none } () () rfl

/-- C10: the profile-update PATCH handler never propagates an exception:
for every combination of collaborator behaviours (JSON parse, schema
validation, database update, cache invalidation — each may throw) and
every request, it returns either the 200 success response or a response
with status 500, success false and message "Update failed"; in particular
client-input validation failures surface as 500, never as a 4xx status. -/
theorem patchHandler_catches_everything {α : Type} (env : PatchEnv)
    (req : NextRequest α) :
    ((patchHandler env req).status = 200 ∧ (patchHandler env req).success = true ∧
      (patchHandler env req).message = "Profile updated successfully") ∨
    ((patchHandler env req).status = 500 ∧ (patchHandler env req).success = false ∧
      (patchHandler env req).message = "Update failed") := by
  cases h : patchAttempt env req with
  | ok u => exact Or.inl (by simp [patchHandler, h])
  | error e => exact Or.inr (by simp [patchHandler, h])

end TrustNet
